import Mathlib

set_option maxRecDepth 100000

/-!
Verification of the nextdock deployment pipeline.

This file gives a shallow embedding of the pipeline code:
the docker service (`src/backend/src/services/dockerService.ts`) and the
deploy controller (`triggerDeploy` / `deployFromRepository`).  External
effects (git clone, the container engine, the ACME client, timestamps,
randomness) are passed in explicitly as outcome parameters; the record
store (deploy records, app records) is threaded as explicit state.
Strings use the source's literal texts.
-/

/-- An environment variable row (`key`, `value`), as stored per app. -/
structure EnvVar where
  key : String
  value : String
deriving Repr, DecidableEq, Inhabited

/-- Commit metadata returned by `cloneRepository`. -/
structure CommitInfo where
  hash : String
  message : String
deriving Repr, DecidableEq, Inhabited

/-- `pat` occurs as a contiguous substring of `s` (model of JS `String.includes`). -/
def strIncludes (s pat : String) : Bool := decide (pat.data <:+: s.data)

/-- Substring occurrence as a proposition. -/
def ContainsStr (s pat : String) : Prop := pat.data <:+: s.data

instance containsStrDecidable (s pat : String) : Decidable (ContainsStr s pat) :=
  List.decidableInfix pat.data s.data

theorem containsStr_iff_strIncludes (s pat : String) :
    ContainsStr s pat ↔ strIncludes s pat = true := by
  unfold ContainsStr strIncludes
  exact decide_eq_true_iff.symm

theorem containsStr_append_left (a b pat : String) (h : ContainsStr b pat) :
    ContainsStr (a ++ b) pat := by
  unfold ContainsStr at h ⊢
  rw [String.data_append]
  have hinf : b.data <:+: a.data ++ b.data :=
    List.IsSuffix.isInfix (List.suffix_append a.data b.data)
  exact h.trans hinf

theorem containsStr_self_append (pat rest : String) : ContainsStr (pat ++ rest) pat := by
  unfold ContainsStr
  rw [String.data_append]
  exact
    List.IsPrefix.isInfix (List.prefix_append pat.data rest.data)

/-- `s` starts with `pre` (model of JS `String.startsWith`). -/
def strStartsWith (s pre : String) : Bool := decide (pre.data <+: s.data)

/-- `s` ends with `post` (model of JS `String.endsWith`). -/
def strEndsWith (s post : String) : Bool := decide (post.data <:+ s.data)

/- ------------------------------------------------------------------
   Network identity allocation (`generateUniqueSubdomain`, part_003)
   ------------------------------------------------------------------ -/

/-- Characters admitted by the sanitization regex `[a-z0-9-]`. -/
def isSubdomainChar (c : Char) : Bool :=
  "abcdefghijklmnopqrstuvwxyz0123456789-".data.contains c

/-- Lower-case, replace every character outside `[a-z0-9-]` by a hyphen and
strip leading/trailing hyphen runs (the two `.replace` calls of the source). -/
def sanitizeSubdomainChars (cs : List Char) : List Char :=
  let lowered := cs.map Char.toLower
  let replaced := lowered.map (fun c => if isSubdomainChar c then c else '-')
  (((replaced.dropWhile (fun c => c == '-')).reverse).dropWhile (fun c => c == '-')).reverse

/-- `generateUniqueSubdomain` from the deploy controller.  `rand` stands for the
random placeholder suffix, `randomSuffix` for the collision suffix and `taken`
for the record-store lookup of an existing subdomain. -/
def generateUniqueSubdomain (baseName rand randomSuffix : String)
    (taken : String → Bool) : String :=
  let cs := sanitizeSubdomainChars baseName.data
  let sanitizedName := if cs.isEmpty then "app-" ++ rand else String.mk cs
  if taken sanitizedName then sanitizedName ++ "-" ++ randomSuffix else sanitizedName

/-- Character class `[a-z0-9]` of the spec's subdomain pattern. -/
def isLowerAlnum (c : Char) : Bool :=
  "abcdefghijklmnopqrstuvwxyz0123456789".data.contains c

/-- Split a character list at every hyphen (the groups of the pattern). -/
def splitOnHyphen : List Char → List (List Char)
  | [] => [[]]
  | c :: rest =>
    let groups := splitOnHyphen rest
    if c == '-' then [] :: groups
    else
      match groups with
      | g :: gs => (c :: g) :: gs
      | [] => [[c]]

/-- Modelled from the spec: the pattern `[a-z0-9]+(-[a-z0-9]+)*` anchored at
both ends, phrased as: splitting at hyphens yields only non-empty
all-alphanumeric groups. -/
def matchesSubdomainPattern (s : String) : Bool :=
  (splitOnHyphen s.data).all (fun p => !p.isEmpty && p.all isLowerAlnum)

/- ------------------------------------------------------------------
   Environment variable masking (`getApp`, part_001)
   ------------------------------------------------------------------ -/

/-- The masking step of `getApp`: every value is replaced by the constant
mask before the environment section is returned. -/
def maskEnvVars (envData : List EnvVar) : List EnvVar :=
  envData.map (fun e => { key := e.key, value := "********" })

theorem maskEnvVars_eq_map_keys (l : List EnvVar) :
    maskEnvVars l = (l.map EnvVar.key).map (fun k => { key := k, value := "********" }) := by
  unfold maskEnvVars
  rw [List.map_map]
  rfl

/- ------------------------------------------------------------------
   Container lifecycle operations (dockerService.ts)
   ------------------------------------------------------------------ -/

/-- An error reported by the container engine, carrying the HTTP status code
dockerode attaches to it. -/
structure DockerErr where
  statusCode : Option Nat
  msg : String
deriving Repr, DecidableEq, Inhabited

/-- `startContainer`: a no-op success on the empty identity, and otherwise the
engine outcome is propagated.  The second component counts engine calls. -/
def startContainer (containerId : String) (engine : Except DockerErr Unit) :
    Except DockerErr Unit × Nat :=
  if containerId.isEmpty then (Except.ok (), 0)
  else
    match engine with
    | Except.ok () => (Except.ok (), 1)
    | Except.error e => (Except.error e, 1)

/-- `stopContainer`: same shape as `startContainer`. -/
def stopContainer (containerId : String) (engine : Except DockerErr Unit) :
    Except DockerErr Unit × Nat :=
  if containerId.isEmpty then (Except.ok (), 0)
  else
    match engine with
    | Except.ok () => (Except.ok (), 1)
    | Except.error e => (Except.error e, 1)

/-- `restartContainer`: same shape as `startContainer`. -/
def restartContainer (containerId : String) (engine : Except DockerErr Unit) :
    Except DockerErr Unit × Nat :=
  if containerId.isEmpty then (Except.ok (), 0)
  else
    match engine with
    | Except.ok () => (Except.ok (), 1)
    | Except.error e => (Except.error e, 1)

/-- `stopAndRemoveContainer`: a no-op success on the empty identity; an engine
error with status code 404 is swallowed (treated as success); any other engine
error propagates. -/
def stopAndRemoveContainer (containerId : String) (engine : Except DockerErr Unit) :
    Except DockerErr Unit × Nat :=
  if containerId.isEmpty then (Except.ok (), 0)
  else
    match engine with
    | Except.ok () => (Except.ok (), 1)
    | Except.error e =>
      if e.statusCode = some 404 then (Except.ok (), 1) else (Except.error e, 1)

/- ------------------------------------------------------------------
   Dockerfile detection and image build (dockerService.ts)
   ------------------------------------------------------------------ -/

/-- ASCII lower-casing of a file name (model of JS `toLowerCase`). -/
def strLower (s : String) : String := String.mk (s.data.map Char.toLower)

/-- `checkDockerfile`: the canonical name counts, and otherwise any file whose
lower-cased name is `dockerfile` counts as present.  `files` is the directory
listing of the working directory. -/
def checkDockerfile (files : List String) : Bool :=
  if files.contains "Dockerfile" then true
  else files.any (fun f => strLower f == "dockerfile")

/-- The file-set effect of `generateNextjsDockerfile`: the template is written
under the canonical name at the directory root. -/
def generateNextjsDockerfile (files : List String) : List String :=
  files ++ ["Dockerfile"]

/-- `buildImage`: ensure a Dockerfile (generating the Next.js template under
`auto`/`nextjs`, failing with the engine's `Cannot locate specified Dockerfile`
text otherwise), then run the engine build.  Returns the final file listing of
the build context on success. -/
def buildImage (repoPath : String) (files : List String) (buildMethod : String)
    (engine : Except String Unit) : Except String (List String) :=
  let hasDockerfile := checkDockerfile files
  if !hasDockerfile then
    if buildMethod == "nextjs" || buildMethod == "auto" then
      let generated := generateNextjsDockerfile files
      if !(checkDockerfile generated) then Except.error "Failed to generate Dockerfile"
      else
        match engine with
        | Except.ok () => Except.ok generated
        | Except.error e => Except.error e
    else
      Except.error ("Cannot locate specified Dockerfile: Dockerfile in " ++ repoPath ++
        ". Please add a Dockerfile to your repository or choose \x27auto\x27 or \x27nextjs\x27 build method.")
  else
    match engine with
    | Except.ok () => Except.ok files
    | Except.error e => Except.error e

/-- The inline Dockerfile-resolution block of the deploy controller: check for
a Dockerfile, and only when the check reports absence look for a differently
cased variant and rename it to the canonical name.  Returns the detection
result and the resulting directory listing. -/
def resolveDockerfile (files : List String) : Bool × List String :=
  if checkDockerfile files then (true, files)
  else
    let alternatives := files.filter (fun f => strLower f == "dockerfile" && f != "Dockerfile")
    match alternatives with
    | [] => (false, files)
    | alt :: _ =>
      let renamed := files.map (fun f => if f == alt then "Dockerfile" else f)
      (checkDockerfile renamed, renamed)

/- ------------------------------------------------------------------
   Container start (`runContainer`, dockerService.ts)
   ------------------------------------------------------------------ -/

/-- The `Env` list handed to `createContainer`: the app's variables as
`KEY=value` entries, then `VIRTUAL_HOST` and `VIRTUAL_PORT` appended when the
app's variable set lacks those keys. -/
def buildContainerEnv (envVars : List EnvVar) (subdomain baseDomain : String) : List String :=
  let env := envVars.map (fun e => e.key ++ "=" ++ e.value)
  let appDomain := subdomain ++ "." ++ baseDomain
  let env :=
    if envVars.any (fun e => e.key == "VIRTUAL_HOST") then env
    else env ++ ["VIRTUAL_HOST=" ++ appDomain]
  if envVars.any (fun e => e.key == "VIRTUAL_PORT") then env
  else env ++ ["VIRTUAL_PORT=80"]

/-- Custom-domain detection of `runContainer`: the `VIRTUAL_HOST` value when it
is non-empty and does not end in `.<baseDomain>`, otherwise the empty string. -/
def detectCustomDomain (envVars : List EnvVar) (baseDomain : String) : String :=
  match envVars.find? (fun e => e.key == "VIRTUAL_HOST") with
  | some e =>
    if e.value == "" then ""
    else if strEndsWith e.value ("." ++ baseDomain) then "" else e.value
  | none => ""

/-- Result of `runContainer`: the returned container identity (or the thrown
engine error), the container environment it was created with, and the warning
logged when certificate work failed. -/
structure RunOutcome where
  result : Except String String
  image : String
  env : List String
  certWarning : Option String
deriving Repr, Inhabited

/-- `runContainer`: create and start a container with the assembled
environment; when a custom domain is detected, drive certificate issuance and
installation, catching every certificate error locally (only a warning is
recorded); return the engine-assigned container identity. -/
def runContainer (imageTag subdomain : String) (envVars : List EnvVar)
    (baseDomain : String) (createStart : Except String String)
    (certOutcome : Except String Unit) : RunOutcome :=
  let env := buildContainerEnv envVars subdomain baseDomain
  let customDomain := detectCustomDomain envVars baseDomain
  match createStart with
  | Except.error e => { result := Except.error e, image := imageTag, env := env, certWarning := none }
  | Except.ok cid =>
    let warn :=
      if customDomain == "" then none
      else
        match certOutcome with
        | Except.ok () => none
        | Except.error m => some ("証明書発行エラー: " ++ m)
    { result := Except.ok cid, image := imageTag, env := env, certWarning := warn }

/- ------------------------------------------------------------------
   Deployment records and the orchestrator (part_003)
   ------------------------------------------------------------------ -/

/-- A row of the deploy-record table, as touched by the pipeline. -/
structure DeployRec where
  status : String
  logs : String
  commit_hash : Option String
  commit_message : Option String
  completed_at : Option Nat
deriving Repr, DecidableEq, Inhabited

/-- A row of the app-record table, as touched by the pipeline. -/
structure AppRec where
  repository : String
  branch : String
  subdomain : String
  custom_domain : Option String
  build_method : Option String
  status : String
  container_id : Option String
  last_deployed_at : Option Nat
deriving Repr, DecidableEq, Inhabited

/-- Outcomes of the external collaborators touched during one attempt. -/
structure World where
  tokenOk : Bool
  cloneResult : Except String CommitInfo
  repoFiles : List String
  buildEngine : Except String Unit
  stopRemoveEngine : Except DockerErr Unit
  createStart : Except String String
  certOutcome : Except String Unit
  now : Nat

/-- `getFullGitHubUrl`: normalize a bare `owner/repo` or a non-`.git` URL. -/
def getFullGitHubUrl (repoUrl : String) : String :=
  if !(strStartsWith repoUrl "https://") then "https://github.com/" ++ repoUrl ++ ".git"
  else if !(strEndsWith repoUrl ".git") then repoUrl ++ ".git"
  else repoUrl

/-- The URL logged on success: the app's custom domain when set (and
non-empty, JS truthiness), otherwise `https://<subdomain>.<baseUrl>`. -/
def appUrlOf (app : AppRec) (baseUrl : String) : String :=
  match app.custom_domain with
  | some cd => if cd == "" then "https://" ++ app.subdomain ++ "." ++ baseUrl else cd
  | none => "https://" ++ app.subdomain ++ "." ++ baseUrl

/-- The remediation text appended to the deploy log when the build error
mentions a missing Dockerfile (the three documented fixes). -/
def dockerfileGuidance : String :=
  "\nリポジトリにDockerfileが見つかりませんでした。以下の対処法を試してください：\n" ++
  "1. リポジトリにDockerfileを追加する\n" ++
  "2. アプリ設定でビルド方法を \x27auto\x27 または \x27nextjs\x27 に変更する\n" ++
  "3. package.jsonファイルが正しく配置されているか確認する\n"

/-- The `catch` block shared by both deploy paths: build the error message
(with Dockerfile guidance when applicable) and mark the deploy record failed
with a completion timestamp. -/
def deployFailUpdate (d : DeployRec) (errMsg : String) (now : Nat) : DeployRec :=
  let base := "Deployment failed: " ++ errMsg ++ "\n"
  let errorMessage :=
    if strIncludes errMsg "Cannot locate specified Dockerfile" then base ++ dockerfileGuidance
    else base
  { d with status := "failed", logs := errorMessage, completed_at := some now }

/-- The deploy record as inserted when a deploy is triggered. -/
def initialDeployRec : DeployRec :=
  { status := "pending", logs := "Deployment queued...",
    commit_hash := none, commit_message := none, completed_at := none }

/-- The background task of `triggerDeploy` for an existing app: clone, resolve
the Dockerfile, build, replace the container, run certificate work inside
`runContainer`, and record the terminal status.  Returns the final deploy
record, the final app record and the trace of every deploy-record write. -/
def triggerDeploy (app : AppRec) (envVars : List EnvVar)
    (appId deployId baseUrl : String) (w : World) :
    DeployRec × AppRec × List DeployRec :=
  let d0 := initialDeployRec
  if !w.tokenOk then
    let df := deployFailUpdate d0 "GitHub token not found" w.now
    (df, app, [d0, df])
  else
    let d1 := { d0 with status := "in_progress", logs := "Deployment started...\n" }
    let fullRepositoryUrl := getFullGitHubUrl app.repository
    let d2 := { d1 with logs := "Deployment started...\nPreparing to clone repository: " ++
                  fullRepositoryUrl ++ " (branch: " ++ app.branch ++ ")\n" }
    match w.cloneResult with
    | Except.error msg =>
      let df := deployFailUpdate d2 msg w.now
      (df, app, [d0, d1, d2, df])
    | Except.ok commit =>
      let d3 := { d2 with
        logs := "Repository cloned. Commit: " ++ commit.hash ++ " - " ++ commit.message ++ "\n"
        commit_hash := some commit.hash
        commit_message := some commit.message }
      let resolved := resolveDockerfile w.repoFiles
      let buildMethod :=
        if resolved.fst then "dockerfile"
        else
          match app.build_method with
          | some bm => if bm == "" then "auto" else bm
          | none => "auto"
      let d4 := { d3 with
        logs := "Repository cloned. Commit: " ++ commit.hash ++ " - " ++ commit.message ++
          "\nPreparing to build Docker image with method: " ++ buildMethod ++ "...\n" }
      match buildImage ("/tmp/repos/" ++ appId) resolved.snd buildMethod w.buildEngine with
      | Except.error msg =>
        let df := deployFailUpdate d4 msg w.now
        (df, app, [d0, d1, d2, d3, d4, df])
      | Except.ok _ =>
        let d5 := { d4 with logs := "Docker image built successfully.\nStarting container...\n" }
        let stopRes :=
          match app.container_id with
          | some cid => (stopAndRemoveContainer cid w.stopRemoveEngine).fst
          | none => Except.ok ()
        match stopRes with
        | Except.error e =>
          let df := deployFailUpdate d5 e.msg w.now
          (df, app, [d0, d1, d2, d3, d4, d5, df])
        | Except.ok () =>
          let run := runContainer ("nextdock/" ++ appId ++ ":" ++ deployId)
            app.subdomain envVars baseUrl w.createStart w.certOutcome
          match run.result with
          | Except.error msg =>
            let df := deployFailUpdate d5 msg w.now
            (df, app, [d0, d1, d2, d3, d4, d5, df])
          | Except.ok containerId =>
            let app' := { app with
              status := "running"
              container_id := some containerId
              last_deployed_at := some w.now }
            let appUrl := appUrlOf app baseUrl
            let d6 := { d5 with
              status := "success"
              logs := "Deployment successful!\nApp is running at: " ++ appUrl ++ "\n"
              completed_at := some w.now }
            (d6, app', [d0, d1, d2, d3, d4, d5, d6])

/- ------------------------------------------------------------------
   First-time deploy (`deployFromRepository`, part_003)
   ------------------------------------------------------------------ -/

/-- The proxy-routing variables appended to the stored set by
`deployFromRepository`. -/
def proxyEnvVars (appDomain defaultEmail : String) : List EnvVar :=
  [ { key := "VIRTUAL_HOST", value := appDomain },
    { key := "VIRTUAL_PORT", value := "80" },
    { key := "LETSENCRYPT_HOST", value := appDomain },
    { key := "LETSENCRYPT_EMAIL", value := defaultEmail } ]

/-- The full stored environment-variable set of a `deployFromRepository` app:
the caller's variables followed by the proxy variables. -/
def allEnvVarsFor (envVars : List EnvVar) (appDomain defaultEmail : String) : List EnvVar :=
  envVars ++ proxyEnvVars appDomain defaultEmail

/-- The app record as inserted by `deployFromRepository` (status `pending`). -/
def mkNewAppRec (repositoryUrl branch subdomain buildMethod : String) : AppRec :=
  { repository := repositoryUrl
    branch := branch
    subdomain := subdomain
    custom_domain := none
    build_method := some buildMethod
    status := "pending"
    container_id := none
    last_deployed_at := none }

/-- The background task of `deployFromRepository` for a freshly created app:
like `triggerDeploy` but with no prior container to remove, with the proxy
variables appended to the environment, and with the catch block additionally
marking the app record `failed`. -/
def deployFromRepository (repositoryUrl branch buildMethod : String)
    (envVars : List EnvVar) (subdomain baseDomain defaultEmail : String)
    (appId deployId : String) (w : World) :
    DeployRec × AppRec × List DeployRec :=
  let appDomain := subdomain ++ "." ++ baseDomain
  let app0 := mkNewAppRec repositoryUrl branch subdomain buildMethod
  let allEnvVars := allEnvVarsFor envVars appDomain defaultEmail
  let fullRepositoryUrl := getFullGitHubUrl repositoryUrl
  let d0 := initialDeployRec
  if !w.tokenOk then
    let df := deployFailUpdate d0 "GitHub token not found" w.now
    (df, { app0 with status := "failed" }, [d0, df])
  else
    let d1 := { d0 with status := "in_progress", logs := "Deployment started...\n" }
    let d2 := { d1 with logs := "Deployment started...\nPreparing to clone repository: " ++
                  fullRepositoryUrl ++ " (branch: " ++ branch ++ ")\n" }
    match w.cloneResult with
    | Except.error msg =>
      let df := deployFailUpdate d2 msg w.now
      (df, { app0 with status := "failed" }, [d0, d1, d2, df])
    | Except.ok commit =>
      let d3 := { d2 with
        logs := "Repository cloned. Commit: " ++ commit.hash ++ " - " ++ commit.message ++ "\n"
        commit_hash := some commit.hash
        commit_message := some commit.message }
      let resolved := resolveDockerfile w.repoFiles
      let finalBuildMethod :=
        if resolved.fst then "dockerfile"
        else if buildMethod == "" then "auto" else buildMethod
      let d4 := { d3 with
        logs := "Repository cloned. Commit: " ++ commit.hash ++ " - " ++ commit.message ++
          "\nPreparing to build Docker image with method: " ++ finalBuildMethod ++ "...\n" }
      match buildImage ("/tmp/repos/" ++ appId) resolved.snd finalBuildMethod w.buildEngine with
      | Except.error msg =>
        let df := deployFailUpdate d4 msg w.now
        (df, { app0 with status := "failed" }, [d0, d1, d2, d3, d4, df])
      | Except.ok _ =>
        let d5 := { d4 with logs := "Docker image built successfully.\nStarting container...\n" }
        let run := runContainer ("nextdock/" ++ appId ++ ":" ++ deployId)
          subdomain allEnvVars baseDomain w.createStart w.certOutcome
        match run.result with
        | Except.error msg =>
          let df := deployFailUpdate d5 msg w.now
          (df, { app0 with status := "failed" }, [d0, d1, d2, d3, d4, d5, df])
        | Except.ok containerId =>
          let app' := { app0 with
            status := "running"
            container_id := some containerId
            last_deployed_at := some w.now }
          let d6 := { d5 with
            status := "success"
            logs := "Deployment successful!\nApp is running at: https://" ++ appDomain ++ "\n"
            completed_at := some w.now }
          (d6, app', [d0, d1, d2, d3, d4, d5, d6])

/- ------------------------------------------------------------------
   Helper lemmas
   ------------------------------------------------------------------ -/

theorem containsStr_append_right (a b pat : String) (h : ContainsStr a pat) :
    ContainsStr (a ++ b) pat := by
  unfold ContainsStr at h ⊢
  rw [String.data_append]
  have hinf : a.data <:+: a.data ++ b.data :=
    List.IsPrefix.isInfix (List.prefix_append a.data b.data)
  exact h.trans hinf

theorem checkDockerfile_eq_or (files : List String) :
    checkDockerfile files =
      (files.contains "Dockerfile" || files.any (fun f => strLower f == "dockerfile")) := by
  unfold checkDockerfile
  by_cases h : files.contains "Dockerfile" <;> simp [h]

theorem checkDockerfile_of_variant (files : List String)
    (h : ∃ f ∈ files, strLower f = "dockerfile") :
    checkDockerfile files = true := by
  obtain ⟨f, hf, hl⟩ := h
  rw [checkDockerfile_eq_or, Bool.or_eq_true]
  exact Or.inr (List.any_eq_true.mpr ⟨f, hf, by simp [hl]⟩)

theorem checkDockerfile_eq_false_of_no_variant (files : List String)
    (h : ∀ f ∈ files, strLower f ≠ "dockerfile") :
    checkDockerfile files = false := by
  rw [checkDockerfile_eq_or, Bool.or_eq_false_iff]
  constructor
  · by_contra hc
    have hmem : "Dockerfile" ∈ files :=
      List.mem_of_elem_eq_true (Bool.not_eq_false _ |>.mp hc)
    exact h "Dockerfile" hmem (by decide)
  · rw [List.any_eq_false]
    intro f hf
    simp [h f hf]

theorem checkDockerfile_false_no_variant (files : List String)
    (h : checkDockerfile files = false) :
    files.filter (fun f => strLower f == "dockerfile" && f != "Dockerfile") = [] := by
  rw [checkDockerfile_eq_or, Bool.or_eq_false_iff] at h
  have hany := List.any_eq_false.mp h.right
  rw [List.filter_eq_nil_iff]
  intro f hf
  simp [by simpa using hany f hf]

theorem resolveDockerfile_preserves_files (files : List String) :
    (resolveDockerfile files).snd = files := by
  unfold resolveDockerfile
  by_cases h : checkDockerfile files
  · simp [h]
  · have hb : checkDockerfile files = false := by simpa using h
    have hnil := checkDockerfile_false_no_variant files hb
    simp [hb, hnil]

theorem resolveDockerfile_of_check (files : List String)
    (h : checkDockerfile files = true) : resolveDockerfile files = (true, files) := by
  unfold resolveDockerfile
  simp [h]

theorem resolveDockerfile_of_not_check (files : List String)
    (h : checkDockerfile files = false) : resolveDockerfile files = (false, files) := by
  unfold resolveDockerfile
  have hnil := checkDockerfile_false_no_variant files h
  simp [h, hnil]

theorem buildImage_ok_of_dockerfile (repoPath : String) (files : List String)
    (buildMethod : String) (h : checkDockerfile files = true) :
    buildImage repoPath files buildMethod (Except.ok ()) = Except.ok files := by
  unfold buildImage
  simp [h]

theorem stopAndRemoveContainer_ok_fst (cid : String) :
    (stopAndRemoveContainer cid (Except.ok ())).fst = Except.ok () := by
  unfold stopAndRemoveContainer
  by_cases h : cid.isEmpty <;> simp [h]

/- ------------------------------------------------------------------
   Claims
   ------------------------------------------------------------------ -/

/-- C7: stop-and-remove is idempotent and tolerant of absence: a 404 from the
engine is treated as success, any other engine error propagates, and
stop-and-remove, stop, start and restart are all no-op successes on the empty
container identity without contacting the engine (zero engine calls). -/
theorem C7_container_ops (id : String) (hid : id ≠ "")
    (e404 eOther : DockerErr) (h404 : e404.statusCode = some 404)
    (hOther : eOther.statusCode ≠ some 404) (engine : Except DockerErr Unit) :
    stopAndRemoveContainer "" engine = (Except.ok (), 0) ∧
    stopContainer "" engine = (Except.ok (), 0) ∧
    startContainer "" engine = (Except.ok (), 0) ∧
    restartContainer "" engine = (Except.ok (), 0) ∧
    stopAndRemoveContainer id (Except.error e404) = (Except.ok (), 1) ∧
    stopAndRemoveContainer id (Except.error eOther) = (Except.error eOther, 1) := by
  have hne : id.isEmpty = false := by
    by_contra hc
    exact hid ((String.isEmpty_iff id).mp (Bool.not_eq_false _ |>.mp hc))
  refine ⟨rfl, rfl, rfl, rfl, ?_, ?_⟩
  · unfold stopAndRemoveContainer
    simp [hne, h404]
  · unfold stopAndRemoveContainer
    simp [hne, hOther]

theorem C7_container_ops_witness :
    ("abc123" : String) ≠ "" ∧
    (stopAndRemoveContainer "" (Except.ok ()) = (Except.ok (), 0) ∧
      stopContainer "" (Except.ok ()) = (Except.ok (), 0) ∧
      startContainer "" (Except.ok ()) = (Except.ok (), 0) ∧
      restartContainer "" (Except.ok ()) = (Except.ok (), 0) ∧
      stopAndRemoveContainer "abc123"
        (Except.error { statusCode := some 404, msg := "no such container" }) = (Except.ok (), 1) ∧
      stopAndRemoveContainer "abc123"
        (Except.error { statusCode := some 500, msg := "engine unavailable" }) =
        (Except.error { statusCode := some 500, msg := "engine unavailable" }, 1)) :=
  ⟨by decide,
   C7_container_ops "abc123" (by decide)
     { statusCode := some 404, msg := "no such container" }
     { statusCode := some 500, msg := "engine unavailable" }
     (by decide) (by decide) (Except.ok ())⟩

/-- C10: the application-detail endpoint masks every environment-variable
value with the constant `********`: every returned value is the mask, and the
returned environment section depends only on the key list — two stores that
differ only in values produce identical masked environments. -/
theorem C10_env_masking (l₁ l₂ : List EnvVar)
    (h : l₁.map EnvVar.key = l₂.map EnvVar.key) :
    (∀ e ∈ maskEnvVars l₁, e.value = "********") ∧ maskEnvVars l₁ = maskEnvVars l₂ := by
  constructor
  · intro e he
    unfold maskEnvVars at he
    obtain ⟨x, _, rfl⟩ := List.mem_map.mp he
    rfl
  · rw [maskEnvVars_eq_map_keys, maskEnvVars_eq_map_keys, h]

theorem C10_env_masking_witness :
    (([{ key := "DB_URL", value := "postgres://secret-1" }] : List EnvVar).map EnvVar.key =
      ([{ key := "DB_URL", value := "postgres://other-2" }] : List EnvVar).map EnvVar.key) ∧
    ((∀ e ∈ maskEnvVars [{ key := "DB_URL", value := "postgres://secret-1" }],
        e.value = "********") ∧
      maskEnvVars [{ key := "DB_URL", value := "postgres://secret-1" }] =
        maskEnvVars [{ key := "DB_URL", value := "postgres://other-2" }]) :=
  ⟨by decide, C10_env_masking _ _ (by decide)⟩

/-- C4 counterexample: a working directory whose listing is exactly
`["dockerfile"]` is detected as having a Dockerfile, but the claimed rename
never happens — the listing after the resolution step is unchanged and
contains no canonical `Dockerfile`. -/
theorem C4_counterexample :
    resolveDockerfile ["dockerfile"] = (true, ["dockerfile"]) ∧
    "Dockerfile" ∉ (resolveDockerfile ["dockerfile"]).snd := by
  refine ⟨?_, ?_⟩ <;> decide

/-- C4 (amended): detection is case-insensitive — a file whose lower-cased
name is `dockerfile` makes detection report presence — but the resolution step
never renames anything: the rename branch only runs when detection reports
absence, so the directory listing is returned unchanged. -/
theorem C4_detection_without_rename (files : List String)
    (h : ∃ f ∈ files, strLower f = "dockerfile") :
    (resolveDockerfile files).fst = true ∧ (resolveDockerfile files).snd = files := by
  have hc := checkDockerfile_of_variant files h
  rw [resolveDockerfile_of_check files hc]
  exact ⟨rfl, rfl⟩

theorem C4_detection_without_rename_witness :
    (∃ f ∈ (["DOCKERFILE", "package.json"] : List String), strLower f = "dockerfile") ∧
    ((resolveDockerfile ["DOCKERFILE", "package.json"]).fst = true ∧
      (resolveDockerfile ["DOCKERFILE", "package.json"]).snd = ["DOCKERFILE", "package.json"]) :=
  ⟨by decide, C4_detection_without_rename _ (by decide)⟩

/-- C6: the subdomain generator always returns a non-empty string (the random
placeholder taking over when sanitization empties the name, a random suffix
being appended on collision), and on the base name `My App!` with no
collision the result is `my-app`, which is non-empty and matches the pattern
`[a-z0-9]+(-[a-z0-9]+)*`. -/
theorem C6_subdomain_generator (baseName rand randomSuffix : String)
    (taken : String → Bool) :
    0 < (generateUniqueSubdomain baseName rand randomSuffix taken).length ∧
    generateUniqueSubdomain "My App!" "x1y2z3" "ab12" (fun _ => false) = "my-app" ∧
    matchesSubdomainPattern "my-app" = true := by
  refine ⟨?_, by decide, by decide⟩
  unfold generateUniqueSubdomain
  have hpos : ∀ s : String, 0 < s.length →
      0 < (if taken s then s ++ "-" ++ randomSuffix else s).length := by
    intro s hs
    by_cases ht : taken s
    · simp only [ht, if_true, String.length_append]
      omega
    · simpa [ht]
  apply hpos
  by_cases h : (sanitizeSubdomainChars baseName.data).isEmpty
  · simp only [h, if_true, String.length_append]
    have h4 : ("app-" : String).length = 4 := by decide
    omega
  · simp only [h, Bool.false_eq_true, if_false]
    have hne : sanitizeSubdomainChars baseName.data ≠ [] := by
      simpa [List.isEmpty_iff] using h
    exact List.length_pos.mpr hne

/-- C9 counterexample: a container started for an app whose stored variable
set is empty gets exactly `VIRTUAL_HOST` and `VIRTUAL_PORT` — no entry for
`LETSENCRYPT_HOST` (nor `LETSENCRYPT_EMAIL`) is auto-populated by the
container-run operation, so the started environment does not contain all four
reserved keys. -/
theorem C9_counterexample :
    (runContainer "nextdock/app1:dep1" "myapp" [] "nextdock.app"
      (Except.ok "cid123") (Except.ok ())).env =
      ["VIRTUAL_HOST=myapp.nextdock.app", "VIRTUAL_PORT=80"] ∧
    ((runContainer "nextdock/app1:dep1" "myapp" [] "nextdock.app"
      (Except.ok "cid123") (Except.ok ())).env.all
        (fun s => !(List.isPrefixOf "LETSENCRYPT_HOST=".data s.data))) = true := by
  refine ⟨?_, ?_⟩ <;> decide

/-- C9 (amended): the container-run operation auto-populates only
`VIRTUAL_HOST` and `VIRTUAL_PORT` when absent, so every started container's
environment contains those two keys; all four reserved keys are present in the
stored variable set only on the first-time repository-deploy path, which
unconditionally appends the four proxy variables. -/
theorem C9_reserved_env_population (envVars : List EnvVar)
    (subdomain baseDomain appDomain defaultEmail : String) :
    (∃ v, ("VIRTUAL_HOST=" ++ v) ∈ buildContainerEnv envVars subdomain baseDomain) ∧
    (∃ v, ("VIRTUAL_PORT=" ++ v) ∈ buildContainerEnv envVars subdomain baseDomain) ∧
    (∃ e ∈ allEnvVarsFor envVars appDomain defaultEmail, e.key = "VIRTUAL_HOST") ∧
    (∃ e ∈ allEnvVarsFor envVars appDomain defaultEmail, e.key = "VIRTUAL_PORT") ∧
    (∃ e ∈ allEnvVarsFor envVars appDomain defaultEmail, e.key = "LETSENCRYPT_HOST") ∧
    (∃ e ∈ allEnvVarsFor envVars appDomain defaultEmail, e.key = "LETSENCRYPT_EMAIL") := by
  refine ⟨?_, ?_, ?_, ?_, ?_, ?_⟩
  · unfold buildContainerEnv
    by_cases h1 : envVars.any (fun e => e.key == "VIRTUAL_HOST")
    · obtain ⟨e, he, hk⟩ := List.any_eq_true.mp h1
      have hk' : e.key = "VIRTUAL_HOST" := by simpa using hk
      have hmem : (e.key ++ "=" ++ e.value) ∈
          envVars.map (fun x => x.key ++ "=" ++ x.value) :=
        List.mem_map_of_mem _ he
      rw [hk'] at hmem
      have hlit : ("VIRTUAL_HOST" ++ "=" : String) = "VIRTUAL_HOST=" := by decide
      rw [hlit] at hmem
      refine ⟨e.value, ?_⟩
      by_cases h2 : envVars.any (fun e => e.key == "VIRTUAL_PORT") <;>
        simp only [h1, h2, if_true, Bool.false_eq_true, if_false] <;>
        first
          | exact hmem
          | exact List.mem_append_left _ hmem
    · refine ⟨subdomain ++ "." ++ baseDomain, ?_⟩
      by_cases h2 : envVars.any (fun e => e.key == "VIRTUAL_PORT") <;>
        simp only [h1, h2, if_true, Bool.false_eq_true, if_false] <;>
        first
          | exact List.mem_append_right _ (List.mem_singleton.mpr rfl)
          | exact List.mem_append_left _ (List.mem_append_right _ (List.mem_singleton.mpr rfl))
  · unfold buildContainerEnv
    by_cases h2 : envVars.any (fun e => e.key == "VIRTUAL_PORT")
    · obtain ⟨e, he, hk⟩ := List.any_eq_true.mp h2
      have hk' : e.key = "VIRTUAL_PORT" := by simpa using hk
      have hmem : (e.key ++ "=" ++ e.value) ∈
          envVars.map (fun x => x.key ++ "=" ++ x.value) :=
        List.mem_map_of_mem _ he
      rw [hk'] at hmem
      have hlit : ("VIRTUAL_PORT" ++ "=" : String) = "VIRTUAL_PORT=" := by decide
      rw [hlit] at hmem
      refine ⟨e.value, ?_⟩
      by_cases h1 : envVars.any (fun e => e.key == "VIRTUAL_HOST") <;>
        simp only [h1, h2, if_true, Bool.false_eq_true, if_false] <;>
        first
          | exact hmem
          | exact List.mem_append_left _ hmem
    · refine ⟨"80", ?_⟩
      have hlit : ("VIRTUAL_PORT=80" : String) = "VIRTUAL_PORT=" ++ "80" := by decide
      by_cases h1 : envVars.any (fun e => e.key == "VIRTUAL_HOST") <;>
        simp only [h1, h2, if_true, Bool.false_eq_true, if_false] <;>
        rw [← hlit] <;>
        exact List.mem_append_right _ (List.mem_singleton.mpr rfl)
  · exact ⟨{ key := "VIRTUAL_HOST", value := appDomain },
      List.mem_append_right _ (by simp [proxyEnvVars]), rfl⟩
  · exact ⟨{ key := "VIRTUAL_PORT", value := "80" },
      List.mem_append_right _ (by simp [proxyEnvVars]), rfl⟩
  · exact ⟨{ key := "LETSENCRYPT_HOST", value := appDomain },
      List.mem_append_right _ (by simp [proxyEnvVars]), rfl⟩
  · exact ⟨{ key := "LETSENCRYPT_EMAIL", value := defaultEmail },
      List.mem_append_right _ (by simp [proxyEnvVars]), rfl⟩

theorem runContainer_result_ok (imageTag subdomain : String) (envVars : List EnvVar)
    (baseDomain cid : String) (certOutcome : Except String Unit) :
    (runContainer imageTag subdomain envVars baseDomain (Except.ok cid) certOutcome).result =
      Except.ok cid := rfl

theorem runContainer_result_error (imageTag subdomain : String) (envVars : List EnvVar)
    (baseDomain msg : String) (certOutcome : Except String Unit) :
    (runContainer imageTag subdomain envVars baseDomain (Except.error msg) certOutcome).result =
      Except.error msg := rfl

/-- The sequence of log values written by the `triggerDeploy` background task
on a fully successful attempt whose Dockerfile check succeeds. -/
def triggerSuccessLogs (app : AppRec) (commit : CommitInfo) (baseUrl : String) : List String :=
  [ "Deployment queued...",
    "Deployment started...\n",
    "Deployment started...\nPreparing to clone repository: " ++
      getFullGitHubUrl app.repository ++ " (branch: " ++ app.branch ++ ")\n",
    "Repository cloned. Commit: " ++ commit.hash ++ " - " ++ commit.message ++ "\n",
    "Repository cloned. Commit: " ++ commit.hash ++ " - " ++ commit.message ++
      "\nPreparing to build Docker image with method: " ++ "dockerfile" ++ "...\n",
    "Docker image built successfully.\nStarting container...\n",
    "Deployment successful!\nApp is running at: " ++ appUrlOf app baseUrl ++ "\n" ]

theorem triggerDeploy_success_spec (app : AppRec) (envVars : List EnvVar)
    (appId deployId baseUrl cid : String) (commit : CommitInfo) (files : List String)
    (cert : Except String Unit) (now : Nat) (hfiles : checkDockerfile files = true) :
    (triggerDeploy app envVars appId deployId baseUrl
      { tokenOk := true
        cloneResult := Except.ok commit
        repoFiles := files
        buildEngine := Except.ok ()
        stopRemoveEngine := Except.ok ()
        createStart := Except.ok cid
        certOutcome := cert
        now := now }).fst.status = "success" ∧
    (triggerDeploy app envVars appId deployId baseUrl
      { tokenOk := true
        cloneResult := Except.ok commit
        repoFiles := files
        buildEngine := Except.ok ()
        stopRemoveEngine := Except.ok ()
        createStart := Except.ok cid
        certOutcome := cert
        now := now }).fst.completed_at = some now ∧
    (triggerDeploy app envVars appId deployId baseUrl
      { tokenOk := true
        cloneResult := Except.ok commit
        repoFiles := files
        buildEngine := Except.ok ()
        stopRemoveEngine := Except.ok ()
        createStart := Except.ok cid
        certOutcome := cert
        now := now }).snd.fst =
      { app with status := "running", container_id := some cid, last_deployed_at := some now } ∧
    ((triggerDeploy app envVars appId deployId baseUrl
      { tokenOk := true
        cloneResult := Except.ok commit
        repoFiles := files
        buildEngine := Except.ok ()
        stopRemoveEngine := Except.ok ()
        createStart := Except.ok cid
        certOutcome := cert
        now := now }).snd.snd).map DeployRec.logs = triggerSuccessLogs app commit baseUrl := by
  have hres := resolveDockerfile_of_check files hfiles
  have hbuild := buildImage_ok_of_dockerfile ("/tmp/repos/" ++ appId) files "dockerfile" hfiles
  simp only [triggerDeploy, Bool.not_true, Bool.false_eq_true, if_false, hres, hbuild,
    runContainer_result_ok, triggerSuccessLogs, List.map_cons, List.map_nil]
  cases hc : app.container_id with
  | none => simp [hbuild, appUrlOf, initialDeployRec]
  | some c0 => simp [hbuild, stopAndRemoveContainer_ok_fst c0, appUrlOf, initialDeployRec]

/-- A concrete app record for the C1 counterexample run. -/
def c1App : AppRec :=
  { repository := "o/r"
    branch := "main"
    subdomain := "myapp"
    custom_domain := none
    build_method := some "auto"
    status := "running"
    container_id := none
    last_deployed_at := none }

/-- A concrete all-successful world for the C1 counterexample run. -/
def c1World : World :=
  { tokenOk := true
    cloneResult := Except.ok { hash := "abc123", message := "initial commit" }
    repoFiles := ["Dockerfile"]
    buildEngine := Except.ok ()
    stopRemoveEngine := Except.ok ()
    createStart := Except.ok "cid123"
    certOutcome := Except.ok ()
    now := 5 }

/-- C1 counterexample: on a concrete fully successful attempt the recorded log
values are the listed stage strings, and the fourth value does not have the
third as a prefix — the clone-completion update rewrites the log and drops the
previously recorded lines, so the transcript is not monotonically appended. -/
theorem C1_counterexample :
    ((triggerDeploy c1App [] "app1" "dep1" "nextdock.app" c1World).snd.snd).map DeployRec.logs =
      [ "Deployment queued...",
        "Deployment started...\n",
        "Deployment started...\nPreparing to clone repository: https://github.com/o/r.git (branch: main)\n",
        "Repository cloned. Commit: abc123 - initial commit\n",
        "Repository cloned. Commit: abc123 - initial commit\nPreparing to build Docker image with method: dockerfile...\n",
        "Docker image built successfully.\nStarting container...\n",
        "Deployment successful!\nApp is running at: https://myapp.nextdock.app\n" ] ∧
    List.isPrefixOf
      "Deployment started...\nPreparing to clone repository: https://github.com/o/r.git (branch: main)\n".data
      "Repository cloned. Commit: abc123 - initial commit\n".data = false := by
  refine ⟨?_, ?_⟩ <;> decide

/-- C1 (amended): log updates are replacements, not appends: each update
overwrites the stored log with a stage-specific string, so that on a fully
successful attempt the stored log sequence is exactly `triggerSuccessLogs`,
whose cross-stage entries drop the earlier recorded lines instead of extending
them. -/
theorem C1_log_updates_replace (app : AppRec) (envVars : List EnvVar)
    (appId deployId baseUrl cid : String) (commit : CommitInfo) (files : List String)
    (cert : Except String Unit) (now : Nat) (hfiles : checkDockerfile files = true) :
    ((triggerDeploy app envVars appId deployId baseUrl
      { tokenOk := true
        cloneResult := Except.ok commit
        repoFiles := files
        buildEngine := Except.ok ()
        stopRemoveEngine := Except.ok ()
        createStart := Except.ok cid
        certOutcome := cert
        now := now }).snd.snd).map DeployRec.logs = triggerSuccessLogs app commit baseUrl :=
  (triggerDeploy_success_spec app envVars appId deployId baseUrl cid
    commit files cert now hfiles).right.right.right

theorem C1_log_updates_replace_witness :
    checkDockerfile ["Dockerfile"] = true ∧
    ((triggerDeploy c1App [] "app1" "dep1" "nextdock.app" c1World).snd.snd).map DeployRec.logs =
      triggerSuccessLogs c1App { hash := "abc123", message := "initial commit" } "nextdock.app" :=
  ⟨by decide,
   C1_log_updates_replace c1App [] "app1" "dep1" "nextdock.app" "cid123"
     { hash := "abc123", message := "initial commit" } ["Dockerfile"]
     (Except.ok ()) 5 (by decide)⟩

/-- C3: a certificate failure during a custom-domain deployment is caught
inside the container-run operation: `runContainer` still returns the started
container's identity (recording only a warning), and the surrounding attempt
still records status `success` — certificate failure never fails the
deployment. -/
theorem C3_cert_failure_non_fatal (app : AppRec) (envVars : List EnvVar)
    (appId deployId baseUrl imageTag subdomain cid certMsg : String)
    (commit : CommitInfo) (files : List String) (now : Nat)
    (hfiles : checkDockerfile files = true)
    (hcd : detectCustomDomain envVars baseUrl ≠ "") :
    (runContainer imageTag subdomain envVars baseUrl (Except.ok cid)
      (Except.error certMsg)).result = Except.ok cid ∧
    (runContainer imageTag subdomain envVars baseUrl (Except.ok cid)
      (Except.error certMsg)).certWarning = some ("証明書発行エラー: " ++ certMsg) ∧
    (triggerDeploy app envVars appId deployId baseUrl
      { tokenOk := true
        cloneResult := Except.ok commit
        repoFiles := files
        buildEngine := Except.ok ()
        stopRemoveEngine := Except.ok ()
        createStart := Except.ok cid
        certOutcome := Except.error certMsg
        now := now }).fst.status = "success" := by
  refine ⟨rfl, ?_,
    (triggerDeploy_success_spec app envVars appId deployId baseUrl cid
      commit files (Except.error certMsg) now hfiles).left⟩
  unfold runContainer
  have hb : (detectCustomDomain envVars baseUrl == "") = false := by
    simpa using hcd
  simp [hb]

theorem C3_cert_failure_non_fatal_witness :
    checkDockerfile ["Dockerfile"] = true ∧
    detectCustomDomain [{ key := "VIRTUAL_HOST", value := "example.com" }] "nextdock.app" ≠ "" ∧
    ((runContainer "nextdock/app1:dep1" "myapp"
        [{ key := "VIRTUAL_HOST", value := "example.com" }] "nextdock.app"
        (Except.ok "cid123") (Except.error "DNS challenge failed")).result = Except.ok "cid123" ∧
      (runContainer "nextdock/app1:dep1" "myapp"
        [{ key := "VIRTUAL_HOST", value := "example.com" }] "nextdock.app"
        (Except.ok "cid123") (Except.error "DNS challenge failed")).certWarning =
          some ("証明書発行エラー: " ++ "DNS challenge failed") ∧
      (triggerDeploy c1App [{ key := "VIRTUAL_HOST", value := "example.com" }]
        "app1" "dep1" "nextdock.app"
        { tokenOk := true
          cloneResult := Except.ok { hash := "abc123", message := "initial commit" }
          repoFiles := ["Dockerfile"]
          buildEngine := Except.ok ()
          stopRemoveEngine := Except.ok ()
          createStart := Except.ok "cid123"
          certOutcome := Except.error "DNS challenge failed"
          now := 5 }).fst.status = "success") :=
  ⟨by decide, by decide,
   C3_cert_failure_non_fatal c1App [{ key := "VIRTUAL_HOST", value := "example.com" }]
     "app1" "dep1" "nextdock.app" "nextdock/app1:dep1" "myapp" "cid123" "DNS challenge failed"
     { hash := "abc123", message := "initial commit" } ["Dockerfile"] 5
     (by decide) (by decide)⟩

theorem buildImage_missing_dockerfile (repoPath : String) (files : List String)
    (buildMethod : String) (engine : Except String Unit)
    (hck : checkDockerfile files = false)
    (hm1 : buildMethod ≠ "nextjs") (hm2 : buildMethod ≠ "auto") :
    buildImage repoPath files buildMethod engine =
      Except.error ("Cannot locate specified Dockerfile: Dockerfile in " ++ repoPath ++
        ". Please add a Dockerfile to your repository or choose \x27auto\x27 or \x27nextjs\x27 build method.") := by
  unfold buildImage
  have hb1 : (buildMethod == "nextjs") = false := by simpa using hm1
  have hb2 : (buildMethod == "auto") = false := by simpa using hm2
  simp [hck, hb1, hb2]

theorem missing_dockerfile_msg_includes (repoPath : String) :
    strIncludes ("Cannot locate specified Dockerfile: Dockerfile in " ++ repoPath ++
      ". Please add a Dockerfile to your repository or choose \x27auto\x27 or \x27nextjs\x27 build method.")
      "Cannot locate specified Dockerfile" = true := by
  rw [← containsStr_iff_strIncludes]
  apply containsStr_append_right
  apply containsStr_append_right
  decide

/-- C5: a deployment of a repository with no Dockerfile under any casing,
whose effective build method is neither `auto` nor `nextjs` (the stored method
is non-empty — an empty stored method falls back to `auto` by JS truthiness —
and is neither `auto` nor `nextjs`), fails the build; the deploy record ends
`failed` and its log carries the three documented remediation fixes. -/
theorem C5_missing_dockerfile_failure (app : AppRec) (envVars : List EnvVar)
    (appId deployId baseUrl : String) (commit : CommitInfo) (files : List String)
    (eng : Except String Unit) (stopEng : Except DockerErr Unit)
    (cs : Except String String) (cert : Except String Unit) (now : Nat) (m : String)
    (hbm : app.build_method = some m) (hm0 : m ≠ "")
    (hm1 : m ≠ "nextjs") (hm2 : m ≠ "auto")
    (hnd : ∀ f ∈ files, strLower f ≠ "dockerfile") :
    (triggerDeploy app envVars appId deployId baseUrl
      { tokenOk := true
        cloneResult := Except.ok commit
        repoFiles := files
        buildEngine := eng
        stopRemoveEngine := stopEng
        createStart := cs
        certOutcome := cert
        now := now }).fst.status = "failed" ∧
    (triggerDeploy app envVars appId deployId baseUrl
      { tokenOk := true
        cloneResult := Except.ok commit
        repoFiles := files
        buildEngine := eng
        stopRemoveEngine := stopEng
        createStart := cs
        certOutcome := cert
        now := now }).fst.completed_at = some now ∧
    ContainsStr (triggerDeploy app envVars appId deployId baseUrl
      { tokenOk := true
        cloneResult := Except.ok commit
        repoFiles := files
        buildEngine := eng
        stopRemoveEngine := stopEng
        createStart := cs
        certOutcome := cert
        now := now }).fst.logs "1. リポジトリにDockerfileを追加する" ∧
    ContainsStr (triggerDeploy app envVars appId deployId baseUrl
      { tokenOk := true
        cloneResult := Except.ok commit
        repoFiles := files
        buildEngine := eng
        stopRemoveEngine := stopEng
        createStart := cs
        certOutcome := cert
        now := now }).fst.logs "2. アプリ設定でビルド方法を \x27auto\x27 または \x27nextjs\x27 に変更する" ∧
    ContainsStr (triggerDeploy app envVars appId deployId baseUrl
      { tokenOk := true
        cloneResult := Except.ok commit
        repoFiles := files
        buildEngine := eng
        stopRemoveEngine := stopEng
        createStart := cs
        certOutcome := cert
        now := now }).fst.logs "3. package.jsonファイルが正しく配置されているか確認する" := by
  have hck := checkDockerfile_eq_false_of_no_variant files hnd
  have hres := resolveDockerfile_of_not_check files hck
  have hbuildErr := buildImage_missing_dockerfile ("/tmp/repos/" ++ appId) files m eng hck hm1 hm2
  have hinc := missing_dockerfile_msg_includes ("/tmp/repos/" ++ appId)
  have hb0 : (m == "") = false := by simpa using hm0
  simp only [triggerDeploy, Bool.not_true, Bool.false_eq_true, if_false, hres, hbm, hb0,
    Bool.false_eq_true, if_false, hbuildErr, deployFailUpdate, hinc, if_true]
  refine ⟨trivial, trivial, ?_, ?_, ?_⟩ <;>
    exact containsStr_append_left _ _ _ (by decide)

/-- A concrete app whose declared build method demands an explicit Dockerfile. -/
def c5App : AppRec :=
  { repository := "o/r"
    branch := "main"
    subdomain := "myapp"
    custom_domain := none
    build_method := some "dockerfile"
    status := "created"
    container_id := none
    last_deployed_at := none }

/-- A concrete world whose repository listing has no Dockerfile in any casing. -/
def c5World : World :=
  { tokenOk := true
    cloneResult := Except.ok { hash := "abc123", message := "initial commit" }
    repoFiles := ["package.json", "index.js"]
    buildEngine := Except.ok ()
    stopRemoveEngine := Except.ok ()
    createStart := Except.ok "cid123"
    certOutcome := Except.ok ()
    now := 7 }

theorem C5_missing_dockerfile_failure_witness :
    c5App.build_method = some "dockerfile" ∧
    ("dockerfile" : String) ≠ "" ∧
    ("dockerfile" : String) ≠ "nextjs" ∧
    ("dockerfile" : String) ≠ "auto" ∧
    (∀ f ∈ (["package.json", "index.js"] : List String), strLower f ≠ "dockerfile") ∧
    ((triggerDeploy c5App [] "app1" "dep1" "nextdock.app" c5World).fst.status = "failed" ∧
      (triggerDeploy c5App [] "app1" "dep1" "nextdock.app" c5World).fst.completed_at = some 7 ∧
      ContainsStr (triggerDeploy c5App [] "app1" "dep1" "nextdock.app" c5World).fst.logs
        "1. リポジトリにDockerfileを追加する" ∧
      ContainsStr (triggerDeploy c5App [] "app1" "dep1" "nextdock.app" c5World).fst.logs
        "2. アプリ設定でビルド方法を \x27auto\x27 または \x27nextjs\x27 に変更する" ∧
      ContainsStr (triggerDeploy c5App [] "app1" "dep1" "nextdock.app" c5World).fst.logs
        "3. package.jsonファイルが正しく配置されているか確認する") :=
  ⟨rfl, by decide, by decide, by decide, by decide,
   C5_missing_dockerfile_failure c5App [] "app1" "dep1" "nextdock.app"
     { hash := "abc123", message := "initial commit" } ["package.json", "index.js"]
     (Except.ok ()) (Except.ok ()) (Except.ok "cid123") (Except.ok ()) 7 "dockerfile"
     rfl (by decide) (by decide) (by decide) (by decide)⟩

/-- C8 counterexample: a first-time deployment (`deployFromRepository`) whose
container creation fails does change the application record's status: the app
was inserted with status `pending` and the catch block sets it to `failed`,
contradicting the claim that the app status is left at its prior value. -/
theorem C8_counterexample :
    (mkNewAppRec "o/r" "main" "myapp" "auto").status = "pending" ∧
    (deployFromRepository "o/r" "main" "auto" [] "myapp" "nextdock.app"
      "admin@nextdock.app" "app1" "dep1"
      { tokenOk := true
        cloneResult := Except.ok { hash := "abc123", message := "initial commit" }
        repoFiles := ["Dockerfile"]
        buildEngine := Except.ok ()
        stopRemoveEngine := Except.ok ()
        createStart := Except.error "container create failed"
        certOutcome := Except.ok ()
        now := 5 }).fst.status = "failed" ∧
    (deployFromRepository "o/r" "main" "auto" [] "myapp" "nextdock.app"
      "admin@nextdock.app" "app1" "dep1"
      { tokenOk := true
        cloneResult := Except.ok { hash := "abc123", message := "initial commit" }
        repoFiles := ["Dockerfile"]
        buildEngine := Except.ok ()
        stopRemoveEngine := Except.ok ()
        createStart := Except.error "container create failed"
        certOutcome := Except.ok ()
        now := 5 }).snd.fst.status = "failed" ∧
    (deployFromRepository "o/r" "main" "auto" [] "myapp" "nextdock.app"
      "admin@nextdock.app" "app1" "dep1"
      { tokenOk := true
        cloneResult := Except.ok { hash := "abc123", message := "initial commit" }
        repoFiles := ["Dockerfile"]
        buildEngine := Except.ok ()
        stopRemoveEngine := Except.ok ()
        createStart := Except.error "container create failed"
        certOutcome := Except.ok ()
        now := 5 }).snd.fst.status ≠ (mkNewAppRec "o/r" "main" "myapp" "auto").status := by
  refine ⟨?_, ?_, ?_, ?_⟩ <;> decide

/-- C8 (amended): when creating or starting the new container fails the deploy
record is marked `failed`; on the redeploy path (`triggerDeploy`) the app
record is left completely unchanged, while on the first-time path
(`deployFromRepository`) the catch block sets the app record's status to
`failed` — its container identity and last-deployed timestamp remain unset. -/
theorem C8_app_record_on_container_failure (app : AppRec) (envVars envVars2 : List EnvVar)
    (appId deployId baseUrl msg msg2 : String) (commit commit2 : CommitInfo)
    (files files2 : List String) (cert cert2 : Except String Unit) (now now2 : Nat)
    (repositoryUrl branch buildMethod subdomain baseDomain defaultEmail appId2 deployId2 : String)
    (hfiles : checkDockerfile files = true) (hfiles2 : checkDockerfile files2 = true) :
    (triggerDeploy app envVars appId deployId baseUrl
      { tokenOk := true
        cloneResult := Except.ok commit
        repoFiles := files
        buildEngine := Except.ok ()
        stopRemoveEngine := Except.ok ()
        createStart := Except.error msg
        certOutcome := cert
        now := now }).snd.fst = app ∧
    (triggerDeploy app envVars appId deployId baseUrl
      { tokenOk := true
        cloneResult := Except.ok commit
        repoFiles := files
        buildEngine := Except.ok ()
        stopRemoveEngine := Except.ok ()
        createStart := Except.error msg
        certOutcome := cert
        now := now }).fst.status = "failed" ∧
    (deployFromRepository repositoryUrl branch buildMethod envVars2 subdomain baseDomain
      defaultEmail appId2 deployId2
      { tokenOk := true
        cloneResult := Except.ok commit2
        repoFiles := files2
        buildEngine := Except.ok ()
        stopRemoveEngine := Except.ok ()
        createStart := Except.error msg2
        certOutcome := cert2
        now := now2 }).snd.fst =
      { mkNewAppRec repositoryUrl branch subdomain buildMethod with status := "failed" } ∧
    (deployFromRepository repositoryUrl branch buildMethod envVars2 subdomain baseDomain
      defaultEmail appId2 deployId2
      { tokenOk := true
        cloneResult := Except.ok commit2
        repoFiles := files2
        buildEngine := Except.ok ()
        stopRemoveEngine := Except.ok ()
        createStart := Except.error msg2
        certOutcome := cert2
        now := now2 }).fst.status = "failed" := by
  have hres := resolveDockerfile_of_check files hfiles
  have hbuild := buildImage_ok_of_dockerfile ("/tmp/repos/" ++ appId) files "dockerfile" hfiles
  have hres2 := resolveDockerfile_of_check files2 hfiles2
  have hbuild2 := buildImage_ok_of_dockerfile ("/tmp/repos/" ++ appId2) files2 "dockerfile" hfiles2
  refine ⟨?_, ?_, ?_, ?_⟩
  · simp only [triggerDeploy, Bool.not_true, Bool.false_eq_true, if_false, hres, hbuild,
      runContainer_result_error]
    cases hc : app.container_id with
    | none => simp [hbuild, deployFailUpdate]
    | some c0 => simp [hbuild, stopAndRemoveContainer_ok_fst c0, deployFailUpdate]
  · simp only [triggerDeploy, Bool.not_true, Bool.false_eq_true, if_false, hres, hbuild,
      runContainer_result_error]
    cases hc : app.container_id with
    | none => simp [hbuild, deployFailUpdate]
    | some c0 => simp [hbuild, stopAndRemoveContainer_ok_fst c0, deployFailUpdate]
  · simp only [deployFromRepository, Bool.not_true, Bool.false_eq_true, if_false, hres2,
      hbuild2, runContainer_result_error]
    simp [hbuild2, deployFailUpdate]
  · simp only [deployFromRepository, Bool.not_true, Bool.false_eq_true, if_false, hres2,
      hbuild2, runContainer_result_error]
    simp [hbuild2, deployFailUpdate]

theorem C8_app_record_on_container_failure_witness :
    checkDockerfile ["Dockerfile"] = true ∧
    checkDockerfile ["dockerfile"] = true ∧
    ((triggerDeploy c1App [] "app1" "dep1" "nextdock.app"
      { tokenOk := true
        cloneResult := Except.ok { hash := "abc123", message := "initial commit" }
        repoFiles := ["Dockerfile"]
        buildEngine := Except.ok ()
        stopRemoveEngine := Except.ok ()
        createStart := Except.error "boom"
        certOutcome := Except.ok ()
        now := 5 }).snd.fst = c1App ∧
    (triggerDeploy c1App [] "app1" "dep1" "nextdock.app"
      { tokenOk := true
        cloneResult := Except.ok { hash := "abc123", message := "initial commit" }
        repoFiles := ["Dockerfile"]
        buildEngine := Except.ok ()
        stopRemoveEngine := Except.ok ()
        createStart := Except.error "boom"
        certOutcome := Except.ok ()
        now := 5 }).fst.status = "failed" ∧
    (deployFromRepository "o/r" "main" "auto" [] "myapp" "nextdock.app"
      "admin@nextdock.app" "app2" "dep2"
      { tokenOk := true
        cloneResult := Except.ok { hash := "def456", message := "second commit" }
        repoFiles := ["dockerfile"]
        buildEngine := Except.ok ()
        stopRemoveEngine := Except.ok ()
        createStart := Except.error "boom2"
        certOutcome := Except.ok ()
        now := 6 }).snd.fst =
      { mkNewAppRec "o/r" "main" "myapp" "auto" with status := "failed" } ∧
    (deployFromRepository "o/r" "main" "auto" [] "myapp" "nextdock.app"
      "admin@nextdock.app" "app2" "dep2"
      { tokenOk := true
        cloneResult := Except.ok { hash := "def456", message := "second commit" }
        repoFiles := ["dockerfile"]
        buildEngine := Except.ok ()
        stopRemoveEngine := Except.ok ()
        createStart := Except.error "boom2"
        certOutcome := Except.ok ()
        now := 6 }).fst.status = "failed") :=
  ⟨by decide, by decide,
   C8_app_record_on_container_failure c1App [] [] "app1" "dep1" "nextdock.app"
     "boom" "boom2" { hash := "abc123", message := "initial commit" }
     { hash := "def456", message := "second commit" } ["Dockerfile"] ["dockerfile"]
     (Except.ok ()) (Except.ok ()) 5 6 "o/r" "main" "auto" "myapp" "nextdock.app"
     "admin@nextdock.app" "app2" "dep2" (by decide) (by decide)⟩

theorem triggerDeploy_terminal (app : AppRec) (envVars : List EnvVar)
    (appId deployId baseUrl : String) (w : World) :
    ((triggerDeploy app envVars appId deployId baseUrl w).fst.status = "success" ∨
      (triggerDeploy app envVars appId deployId baseUrl w).fst.status = "failed") ∧
    ((triggerDeploy app envVars appId deployId baseUrl w).fst.completed_at).isSome = true := by
  obtain ⟨tok, clone, files, beng, seng, cs, cert, tnow⟩ := w
  unfold triggerDeploy
  cases tok with
  | false => simp [deployFailUpdate]
  | true =>
    cases clone with
    | error msg => simp [deployFailUpdate]
    | ok commit =>
      simp only [Bool.not_true, Bool.false_eq_true, if_false]
      cases hb : buildImage ("/tmp/repos/" ++ appId) (resolveDockerfile files).2
          (if (resolveDockerfile files).1 = true then "dockerfile"
            else
              match app.build_method with
              | some bm => if bm == "" then "auto" else bm
              | none => "auto") beng with
      | error msg => simp [hb, deployFailUpdate]
      | ok fs =>
        simp only [hb]
        cases hc : app.container_id with
        | none =>
          cases hr : (runContainer ("nextdock/" ++ appId ++ ":" ++ deployId) app.subdomain
              envVars baseUrl cs cert).result with
          | error m => simp [hr, deployFailUpdate]
          | ok cid => simp [hr]
        | some c0 =>
          cases hs : (stopAndRemoveContainer c0 seng).fst with
          | error e => simp [hs, deployFailUpdate]
          | ok u =>
            cases hr : (runContainer ("nextdock/" ++ appId ++ ":" ++ deployId) app.subdomain
                envVars baseUrl cs cert).result with
            | error m => simp [hs, hr, deployFailUpdate]
            | ok cid => simp [hs, hr]

theorem deployFromRepository_terminal (repositoryUrl branch buildMethod : String)
    (envVars : List EnvVar) (subdomain baseDomain defaultEmail appId deployId : String)
    (w : World) :
    ((deployFromRepository repositoryUrl branch buildMethod envVars subdomain baseDomain
        defaultEmail appId deployId w).fst.status = "success" ∨
      (deployFromRepository repositoryUrl branch buildMethod envVars subdomain baseDomain
        defaultEmail appId deployId w).fst.status = "failed") ∧
    ((deployFromRepository repositoryUrl branch buildMethod envVars subdomain baseDomain
        defaultEmail appId deployId w).fst.completed_at).isSome = true := by
  obtain ⟨tok, clone, files, beng, seng, cs, cert, tnow⟩ := w
  unfold deployFromRepository
  cases tok with
  | false => simp [deployFailUpdate]
  | true =>
    cases clone with
    | error msg => simp [deployFailUpdate]
    | ok commit =>
      simp only [Bool.not_true, Bool.false_eq_true, if_false]
      cases hb : buildImage ("/tmp/repos/" ++ appId) (resolveDockerfile files).2
          (if (resolveDockerfile files).1 = true then "dockerfile"
            else if buildMethod == "" then "auto" else buildMethod) beng with
      | error msg => simp [hb, deployFailUpdate]
      | ok fs =>
        simp only [hb]
        cases hr : (runContainer ("nextdock/" ++ appId ++ ":" ++ deployId) subdomain
            (allEnvVarsFor envVars (subdomain ++ "." ++ baseDomain) defaultEmail)
            baseDomain cs cert).result with
        | error m => simp [hr, deployFailUpdate]
        | ok cid => simp [hr]

/-- C2: every deployment attempt reaches a terminal state: whatever the
outcomes of the external stages (any exception at any stage lands in the catch
block), both orchestrator paths end with the deploy record at status `success`
or `failed` and with a completion timestamp set; in particular this holds for
every attempt whose background execution began (its update trace contains the
`in_progress` transition). -/
theorem C2_attempts_terminate (app : AppRec) (envVars : List EnvVar)
    (appId deployId baseUrl : String) (w : World)
    (repositoryUrl branch buildMethod : String) (envVars2 : List EnvVar)
    (subdomain baseDomain defaultEmail appId2 deployId2 : String) (w2 : World)
    (_hstarted : "in_progress" ∈
      ((triggerDeploy app envVars appId deployId baseUrl w).snd.snd.map DeployRec.status))
    (_hstarted2 : "in_progress" ∈
      ((deployFromRepository repositoryUrl branch buildMethod envVars2 subdomain baseDomain
        defaultEmail appId2 deployId2 w2).snd.snd.map DeployRec.status)) :
    (((triggerDeploy app envVars appId deployId baseUrl w).fst.status = "success" ∨
      (triggerDeploy app envVars appId deployId baseUrl w).fst.status = "failed") ∧
      ((triggerDeploy app envVars appId deployId baseUrl w).fst.completed_at).isSome = true) ∧
    (((deployFromRepository repositoryUrl branch buildMethod envVars2 subdomain baseDomain
        defaultEmail appId2 deployId2 w2).fst.status = "success" ∨
      (deployFromRepository repositoryUrl branch buildMethod envVars2 subdomain baseDomain
        defaultEmail appId2 deployId2 w2).fst.status = "failed") ∧
      ((deployFromRepository repositoryUrl branch buildMethod envVars2 subdomain baseDomain
        defaultEmail appId2 deployId2 w2).fst.completed_at).isSome = true) :=
  ⟨triggerDeploy_terminal app envVars appId deployId baseUrl w,
   deployFromRepository_terminal repositoryUrl branch buildMethod envVars2 subdomain
     baseDomain defaultEmail appId2 deployId2 w2⟩

theorem C2_attempts_terminate_witness :
    ("in_progress" ∈
      ((triggerDeploy c1App [] "app1" "dep1" "nextdock.app" c1World).snd.snd.map
        DeployRec.status)) ∧
    ("in_progress" ∈
      ((deployFromRepository "o/r" "main" "auto" [] "myapp" "nextdock.app"
        "admin@nextdock.app" "app2" "dep2" c1World).snd.snd.map DeployRec.status)) ∧
    ((((triggerDeploy c1App [] "app1" "dep1" "nextdock.app" c1World).fst.status = "success" ∨
      (triggerDeploy c1App [] "app1" "dep1" "nextdock.app" c1World).fst.status = "failed") ∧
      ((triggerDeploy c1App [] "app1" "dep1" "nextdock.app" c1World).fst.completed_at).isSome =
        true) ∧
    (((deployFromRepository "o/r" "main" "auto" [] "myapp" "nextdock.app"
        "admin@nextdock.app" "app2" "dep2" c1World).fst.status = "success" ∨
      (deployFromRepository "o/r" "main" "auto" [] "myapp" "nextdock.app"
        "admin@nextdock.app" "app2" "dep2" c1World).fst.status = "failed") ∧
      ((deployFromRepository "o/r" "main" "auto" [] "myapp" "nextdock.app"
        "admin@nextdock.app" "app2" "dep2" c1World).fst.completed_at).isSome = true)) :=
  ⟨by decide, by decide,
   C2_attempts_terminate c1App [] "app1" "dep1" "nextdock.app" c1World
     "o/r" "main" "auto" [] "myapp" "nextdock.app" "admin@nextdock.app" "app2" "dep2" c1World
     (by decide) (by decide)⟩
